import Mathlib

/-!
# Verification of the simulated API client / user manager

Shallow embedding of `src/basics/05_practical_api_client.py`.

The Python module defines an `APIClient` (a simulated HTTP backend behind
`_make_request`, plus the operations `get_users`, `create_user`, `login`,
`get_stats`) and a `UserManager` (an in-memory cache with lazy refresh and
summary aggregation).  All state is explicit here: each stateful Python method
becomes a Lean function from the state to a pair of the new state and the
returned value.

Two aspects of the source cannot be carried into a deterministic embedding and
are abstracted, consistently with the claims under scrutiny, which never
mention them:
* wall-clock values (`datetime.now()` for `created_at` and `last_fetch`) are
  reduced to a Boolean "a refresh has happened" flag and the `created_at`
  field is omitted from the record;
* `print` calls, which produce no value and mutate nothing.

Python string tests (`in`, `startswith`, `split`) are modelled over the
character list `String.data` so that every definition evaluates by kernel
reduction.
-/

set_option autoImplicit false

/-- Python `c in s` for a single character `c` (membership test on a string). -/
def hasChar (l : List Char) (c : Char) : Bool :=
  l.any (fun a => a == c)

/-- Python `s.startswith(p)`. -/
def pyStartswith (s p : String) : Bool :=
  List.isPrefixOf p.data s.data

/-- Everything after the first occurrence of `c` (empty if `c` is absent). -/
def afterFirst (c : Char) : List Char → List Char
  | [] => []
  | a :: rest => if a == c then rest else afterFirst c rest

/-- Python `s.split(c)[1]`: the segment strictly between the first and the
second occurrence of `c` (up to the end if `c` occurs only once).  The source
only evaluates it after checking `c in s`. -/
def pySplitIdx1 (c : Char) (l : List Char) : List Char :=
  (afterFirst c l).takeWhile (fun a => !(a == c))

/-- Python `s.rstrip('/')` as used on the base URL. -/
def pyRstripSlash (s : String) : String :=
  String.mk (s.data.reverse.dropWhile (fun a => a == '/')).reverse

/-- A payload dictionary (`Optional[Dict]` in the source): an ordered list of
string keyed fields, `get` returning the first binding. -/
abbrev Dict := List (String × String)

/-- Python `d.get(k)` (None when absent). -/
def dictGet (d : Dict) (k : String) : Option String :=
  (d.find? (fun p => p.1 == k)).map (fun p => p.2)

/-- Python truthiness of an `Optional[Dict]` value: present and non-empty. -/
def dictTruthy (d : Option Dict) : Bool :=
  match d with
  | none => false
  | some l => !l.isEmpty

/-- A user record as handled by the module (the `created_at` wall-clock field
of a freshly created user is outside the deterministic model and omitted;
no claim mentions it).  `name`/`email` are optional because the simulated
backend builds them with `data.get(...)`, which can be `None`. -/
structure User where
  id : Nat
  name : Option String
  email : Option String
  active : Bool
deriving DecidableEq, Repr

/-- The data payload of a simulated response: a user list (GET /users), a
single user (POST /users), or a token record (POST /auth/login). -/
inductive RespData where
  | users (l : List User)
  | user (u : User)
  | token (t : String) (expires_in : Nat)
deriving DecidableEq, Repr

/-- A simulated response dictionary: the `status` field plus at most one of
`data` / `error`. -/
structure Response where
  status : Nat
  data : Option RespData
  error : Option String
deriving DecidableEq, Repr

/-- The mutable state of an `APIClient` instance.  `session_data` is a dict
whose only key ever written is `"token"`, modelled as an `Option String`. -/
structure ClientState where
  base_url : String
  api_key : Option String
  session_token : Option String
  request_count : Nat
deriving DecidableEq, Repr

/-- `APIClient.__init__`. -/
def initClient (base_url : String) (api_key : Option String) : ClientState :=
  { base_url := pyRstripSlash base_url
    api_key := api_key
    session_token := none
    request_count := 0 }

/-- The error kinds raised by the client: `APIError` and `ValueError`. -/
inductive Err where
  | apiError (msg : String)
  | valueError (msg : String)
deriving DecidableEq, Repr

/-- The fixed 3-record list served by `GET /users`. -/
def fixedUsers : List User :=
  [ { id := 1, name := some "Alice", email := some "alice@example.com", active := true }
  , { id := 2, name := some "Bob", email := some "bob@example.com", active := false }
  , { id := 3, name := some "Charlie", email := some "charlie@example.com", active := true } ]

/-- `APIClient._handle_users_endpoint`. -/
def handle_users_endpoint (s : ClientState) (endpoint method : String)
    (data : Option Dict) : ClientState × Response :=
  if method == "GET" && endpoint == "/users" then
    (s, { status := 200, data := some (.users fixedUsers), error := none })
  else if method == "POST" && endpoint == "/users" && dictTruthy data then
    let d := data.getD []
    (s, { status := 201
          data := some (.user { id := 999, name := dictGet d "name"
                                email := dictGet d "email", active := true })
          error := none })
  else
    (s, { status := 400, data := none, error := some "Invalid users endpoint" })

/-- `APIClient._handle_auth_endpoint`.  The token is the f-string
`token_for_{username}_{request_count}`; in the success branch the username is
known to be `"admin"`. -/
def handle_auth_endpoint (s : ClientState) (endpoint method : String)
    (data : Option Dict) : ClientState × Response :=
  if method == "POST" && endpoint == "/auth/login" && dictTruthy data then
    let d := data.getD []
    if dictGet d "username" == some "admin" && dictGet d "password" == some "secret" then
      let token := "token_for_" ++ (dictGet d "username").getD "" ++ "_" ++
        toString s.request_count
      ({ s with session_token := some token },
       { status := 200, data := some (.token token 3600), error := none })
    else
      (s, { status := 401, data := none, error := some "Invalid credentials" })
  else
    (s, { status := 400, data := none, error := some "Invalid auth endpoint" })

/-- `APIClient._make_request`: bump the request counter, then dispatch on the
endpoint prefix. -/
def make_request (s : ClientState) (endpoint : String) (method : String)
    (data : Option Dict) : ClientState × Response :=
  let s := { s with request_count := s.request_count + 1 }
  if pyStartswith endpoint "/users" then
    handle_users_endpoint s endpoint method data
  else if pyStartswith endpoint "/auth" then
    handle_auth_endpoint s endpoint method data
  else
    (s, { status := 404, data := none, error := some "Endpoint not found" })

/-- Python `str(x)` for an `Optional[str]`, as interpolated by an f-string. -/
def pyStrOpt (o : Option String) : String :=
  match o with
  | some s => s
  | none => "None"

/-- `response.get("data", [])` as read by `get_users` (a non-list payload is
impossible at status 200 on this path). -/
def usersOf (d : Option RespData) : List User :=
  match d with
  | some (.users l) => l
  | _ => []

/-- The body of the `try:` block of `APIClient.get_users`, given the response
of `_make_request`: return the data on status 200, otherwise raise
`APIError(f"Failed to get users: {response.get('error')}")`. -/
def get_users_try (r : Response) : Except Err (List User) :=
  if r.status == 200 then
    .ok (usersOf r.data)
  else
    .error (.apiError ("Failed to get users: " ++ pyStrOpt r.error))

/-- The `except Exception:` clause of `APIClient.get_users`: any error is
caught, logged, and replaced by the empty list. -/
def get_users_catch (e : Except Err (List User)) : List User :=
  match e with
  | .ok l => l
  | .error _ => []

/-- `APIClient.get_users`: issue `GET /users`, then run the `try/except`
body on the response.  Note the function is total: it never lets an error
escape. -/
def get_users (s : ClientState) : ClientState × List User :=
  let (s, r) := make_request s "/users" "GET" none
  (s, get_users_catch (get_users_try r))

/-- `APIClient._is_valid_email`: `"@" in email and "." in email.split("@")[1]`. -/
def is_valid_email (email : String) : Bool :=
  hasChar email.data '@' && hasChar (pySplitIdx1 '@' email.data) '.'

/-- `response.get("data")` as read by `create_user`. -/
def userOf (d : Option RespData) : Option User :=
  match d with
  | some (.user u) => some u
  | _ => none

/-- `APIClient.create_user`: raise `ValueError` on an invalid email before any
request; otherwise POST to `/users` and return the created record on 201,
raising `APIError` otherwise. -/
def create_user (s : ClientState) (name email : String) :
    ClientState × Except Err (Option User) :=
  if !is_valid_email email then
    (s, .error (.valueError ("Invalid email format: " ++ email)))
  else
    let user_data : Dict := [("name", name), ("email", email)]
    let (s, r) := make_request s "/users" "POST" (some user_data)
    if r.status == 201 then
      (s, .ok (userOf r.data))
    else
      (s, .error (.apiError ("Failed to create user: " ++ pyStrOpt r.error)))

/-- `APIClient.login`: POST the credentials to `/auth/login`; true exactly on
status 200.  Bad credentials are a normal `false`, never an exception. -/
def login (s : ClientState) (username password : String) : ClientState × Bool :=
  let auth_data : Dict := [("username", username), ("password", password)]
  let (s, r) := make_request s "/auth/login" "POST" (some auth_data)
  if r.status == 200 then (s, true) else (s, false)

/-- The dictionary returned by `APIClient.get_stats`. -/
structure Stats where
  requests_made : Nat
  base_url : String
  authenticated : Bool
  session_token : Option String
deriving DecidableEq, Repr

/-- `APIClient.get_stats`: a pure read (`authenticated` is
`"token" in self.session_data`). -/
def get_stats (s : ClientState) : Stats :=
  { requests_made := s.request_count
    base_url := s.base_url
    authenticated := s.session_token.isSome
    session_token := s.session_token }

/-- The mutable state of a `UserManager` instance paired with its client.
`last_fetch` is a wall-clock timestamp in the source; the deterministic model
keeps only whether a refresh has ever happened. -/
structure ManagerState where
  client : ClientState
  users_cache : List User
  last_fetch_set : Bool
deriving DecidableEq, Repr

/-- `UserManager.__init__`. -/
def initManager (c : ClientState) : ManagerState :=
  { client := c, users_cache := [], last_fetch_set := false }

/-- `UserManager.refresh_users`: replace the cache with `get_users()` and
record the fetch time. -/
def refresh_users (m : ManagerState) : ManagerState :=
  let (c, users) := get_users m.client
  { client := c, users_cache := users, last_fetch_set := true }

/-- `UserManager.get_active_users`: lazy fill when the cache is empty, then
filter on the `active` flag (`user.get("active", False)`). -/
def get_active_users (m : ManagerState) : ManagerState × List User :=
  let m := if m.users_cache.isEmpty then refresh_users m else m
  (m, m.users_cache.filter (fun u => u.active))

/-- `UserManager.find_user_by_email`: lazy fill, then the first cache entry
whose `email` equals the argument, if any. -/
def find_user_by_email (m : ManagerState) (email : String) :
    ManagerState × Option User :=
  let m := if m.users_cache.isEmpty then refresh_users m else m
  (m, m.users_cache.find? (fun u => u.email == some email))

/-- `UserManager.create_and_add_user`: delegate to `create_user`; on a truthy
result append it to the cache; re-raise `APIError`/`ValueError` unchanged. -/
def create_and_add_user (m : ManagerState) (name email : String) :
    ManagerState × Except Err (Option User) :=
  match create_user m.client name email with
  | (c, .ok (some u)) =>
      ({ m with client := c, users_cache := m.users_cache ++ [u] }, .ok (some u))
  | (c, .ok none) => ({ m with client := c }, .ok none)
  | (c, .error e) => ({ m with client := c }, .error e)

/-- One step of the domain-histogram loop of `get_user_summary`: bump the
count of `d`, inserting it at the back on first occurrence (Python dict
insertion order). -/
def addDomain (domains : List (String × Nat)) (d : String) : List (String × Nat) :=
  if domains.any (fun p => p.1 == d) then
    domains.map (fun p => if p.1 == d then (p.1, p.2 + 1) else p)
  else
    domains ++ [(d, 1)]

/-- The domain histogram of `get_user_summary`: for each user whose email
(`user.get("email", "")`) contains `"@"`, count `email.split("@")[1]`. -/
def email_domains_of (users : List User) : List (String × Nat) :=
  users.foldl
    (fun acc u =>
      let email := u.email.getD ""
      if hasChar email.data '@' then
        addDomain acc (String.mk (pySplitIdx1 '@' email.data))
      else acc)
    []

/-- The dictionary returned by `UserManager.get_user_summary` (`last_refresh`
reduced to presence, see `ManagerState`). -/
structure Summary where
  total_users : Nat
  active_users : Nat
  inactive_users : Nat
  email_domains : List (String × Nat)
  last_refresh_set : Bool
deriving DecidableEq, Repr

/-- `UserManager.get_user_summary`: lazy fill, then `total` from the cache,
`active` via a `get_active_users()` call (which can itself lazy-fill again if
the cache is still empty), `inactive = total - active`, and the domain
histogram over the cache. -/
def get_user_summary (m : ManagerState) : ManagerState × Summary :=
  let m := if m.users_cache.isEmpty then refresh_users m else m
  let total := m.users_cache.length
  let (m, actives) := get_active_users m
  let active := actives.length
  (m, { total_users := total
        active_users := active
        inactive_users := total - active
        email_domains := email_domains_of m.users_cache
        last_refresh_set := m.last_fetch_set })

/-! ## The backend as a (path, method, payload) table -/

/-- The deterministic `(path, method, payload) → response` table the simulated
backend implements, written in the row-by-row style of the spec's section-6
table but corrected to the code's behaviour: exact rows first, then the two
prefix fallback rows, then the catch-all 404.  `countAfter` is the request
counter after the dispatch (the token embeds it). -/
def backend_table (path method : String) (d : Option Dict) (countAfter : Nat) : Response :=
  if path = "/users" ∧ method = "GET" then
    { status := 200, data := some (.users fixedUsers), error := none }
  else if path = "/users" ∧ method = "POST" ∧ dictTruthy d = true then
    { status := 201
      data := some (.user { id := 999, name := dictGet (d.getD []) "name"
                            email := dictGet (d.getD []) "email", active := true })
      error := none }
  else if path = "/auth/login" ∧ method = "POST" ∧ dictTruthy d = true ∧
      dictGet (d.getD []) "username" = some "admin" ∧
      dictGet (d.getD []) "password" = some "secret" then
    { status := 200
      data := some (.token ("token_for_admin_" ++ toString countAfter) 3600)
      error := none }
  else if path = "/auth/login" ∧ method = "POST" ∧ dictTruthy d = true then
    { status := 401, data := none, error := some "Invalid credentials" }
  else if pyStartswith path "/users" = true then
    { status := 400, data := none, error := some "Invalid users endpoint" }
  else if pyStartswith path "/auth" = true then
    { status := 400, data := none, error := some "Invalid auth endpoint" }
  else
    { status := 404, data := none, error := some "Endpoint not found" }


example : pyStartswith "/users/1" "/users" = true := by decide
example : pyStartswith "/auth/login" "/auth" = true := by decide
example : pyStartswith "/auth/login" "/users" = false := by decide
example : is_valid_email "alice@example.com" = true := by decide
example : is_valid_email "a@b@c.d" = false := by decide
example : pyRstripSlash "https://api.example.com/" = "https://api.example.com" := by decide

/-! ## Behaviour equations for the client operations -/

/-- `GET /users` always answers 200 with the fixed list, for any client state
and payload. -/
theorem make_request_users_get (s : ClientState) (d : Option Dict) :
    make_request s "/users" "GET" d =
      ({ s with request_count := s.request_count + 1 },
       { status := 200, data := some (.users fixedUsers), error := none }) := rfl

/-- `get_users` always succeeds with the fixed list and bumps the counter. -/
theorem get_users_eq (s : ClientState) :
    get_users s = ({ s with request_count := s.request_count + 1 }, fixedUsers) := rfl

/-- `refresh_users` always installs the fixed list in the cache. -/
theorem refresh_users_eq (m : ManagerState) :
    refresh_users m =
      { client := { m.client with request_count := m.client.request_count + 1 },
        users_cache := fixedUsers, last_fetch_set := true } := rfl

theorem startswith_login_users : pyStartswith "/auth/login" "/users" = false := by decide

theorem startswith_login_auth : pyStartswith "/auth/login" "/auth" = true := by decide

theorem dictTruthy_cons (x : String × String) (l : Dict) :
    dictTruthy (some (x :: l)) = true := rfl

theorem dictGet_user_name (n e : String) :
    dictGet [("name", n), ("email", e)] "name" = some n := rfl

theorem dictGet_user_email (n e : String) :
    dictGet [("name", n), ("email", e)] "email" = some e := rfl

theorem dictGet_auth_username (u p : String) :
    dictGet [("username", u), ("password", p)] "username" = some u := rfl

theorem dictGet_auth_password (u p : String) :
    dictGet [("username", u), ("password", p)] "password" = some p := rfl

/-- Full characterisation of `create_user`: a valid email yields the id-999
record built from the payload; an invalid one is rejected up front. -/
theorem create_user_eq (s : ClientState) (name email : String) :
    create_user s name email =
      if is_valid_email email = true then
        ({ s with request_count := s.request_count + 1 },
         .ok (some { id := 999, name := some name, email := some email, active := true }))
      else
        (s, .error (.valueError ("Invalid email format: " ++ email))) := by
  by_cases h : is_valid_email email = true
  · simp only [create_user, h, Bool.not_true, Bool.false_eq_true, if_false, if_pos h]
    rfl
  · have hb : is_valid_email email = false := by
      cases hv : is_valid_email email
      · rfl
      · exact absurd hv h
    simp [create_user, hb]

/-- Full characterisation of `login`: success exactly on the fixed
credentials, storing the token built from the post-increment counter. -/
theorem login_eq (s : ClientState) (u p : String) :
    login s u p =
      if u = "admin" ∧ p = "secret" then
        ({ s with
            session_token := some ("token_for_" ++ u ++ "_" ++ toString (s.request_count + 1))
            request_count := s.request_count + 1 }, true)
      else
        ({ s with request_count := s.request_count + 1 }, false) := by
  by_cases h : u = "admin" ∧ p = "secret"
  · obtain ⟨hu, hp⟩ := h
    subst hu; subst hp
    simp only [if_pos (And.intro rfl rfl)]
    rfl
  · rw [if_neg h]
    have hc : ((dictGet [("username", u), ("password", p)] "username" == some "admin") &&
        (dictGet [("username", u), ("password", p)] "password" == some "secret")) = false := by
      rw [dictGet_auth_username, dictGet_auth_password]
      by_cases hu : u = "admin" <;> by_cases hp : p = "secret" <;> simp_all
    simp only [login, make_request, handle_auth_endpoint]
    simp [startswith_login_users, startswith_login_auth, dictTruthy, hc]

/-- C2 (amended): the simulated backend is the deterministic function of
(path, method, payload) given by the corrected fixed table `backend_table`:
the exact rows of the spec's table, with the catch-all corrected — a path
starting with "/users" (resp. "/auth") that matches no exact row yields
400 "Invalid users endpoint" (resp. 400 "Invalid auth endpoint"), only the
remaining paths yield 404 "Endpoint not found", and the 401 row additionally
requires a non-empty payload.  `_make_request`'s prefix dispatch and the two
handlers produce exactly the response of that table in every state. -/
theorem make_request_matches_table (s : ClientState) (path method : String) (d : Option Dict) :
    (make_request s path method d).2 = backend_table path method d (s.request_count + 1) := by
  unfold make_request handle_users_endpoint handle_auth_endpoint backend_table
  by_cases h1 : path = "/users" ∧ method = "GET"
  · obtain ⟨hp, hm⟩ := h1; subst hp; subst hm
    rfl
  by_cases h2 : path = "/users" ∧ method = "POST" ∧ dictTruthy d = true
  · obtain ⟨hp, hm, ht⟩ := h2; subst hp; subst hm
    simp only [ht]
    rfl
  by_cases h3 : path = "/auth/login" ∧ method = "POST" ∧ dictTruthy d = true
  · obtain ⟨hp, hm, ht⟩ := h3; subst hp; subst hm
    by_cases h4 : dictGet (d.getD []) "username" = some "admin" ∧
        dictGet (d.getD []) "password" = some "secret"
    · obtain ⟨ha, hb⟩ := h4
      have htok : ("token_for_" ++ "admin" ++ "_" : String) = "token_for_admin_" := rfl
      simp [ht, ha, hb, htok, startswith_login_users, startswith_login_auth]
    · have bc : ((dictGet (d.getD []) "username" == some "admin") &&
          (dictGet (d.getD []) "password" == some "secret")) = false := by
        by_cases ha : dictGet (d.getD []) "username" = some "admin" <;>
          by_cases hb : dictGet (d.getD []) "password" = some "secret" <;>
            simp_all
      simp [ht, bc, h4, startswith_login_users, startswith_login_auth]
  -- residual: none of the exact rows applies
  have b1 : ((method == "GET") && (path == "/users")) = false := by
    by_cases hm : method = "GET" <;> by_cases hp : path = "/users" <;> simp_all
  have b2 : ((method == "POST") && (path == "/users") && dictTruthy d) = false := by
    by_cases hm : method = "POST" <;> by_cases hp : path = "/users" <;>
      cases ht : dictTruthy d <;> simp_all
  have b3 : ((method == "POST") && (path == "/auth/login") && dictTruthy d) = false := by
    by_cases hm : method = "POST" <;> by_cases hp : path = "/auth/login" <;>
      cases ht : dictTruthy d <;> simp_all
  by_cases hpu : pyStartswith path "/users" = true
  · have hne : path ≠ "/auth/login" := by
      intro he; subst he; exact absurd hpu (by decide)
    have t3 : ¬(path = "/auth/login" ∧ method = "POST" ∧ dictTruthy d = true ∧
        dictGet (d.getD []) "username" = some "admin" ∧
        dictGet (d.getD []) "password" = some "secret") := fun hh => hne hh.1
    simp [hpu, b1, b2, h1, h2, h3, t3, hne]
  by_cases hpa : pyStartswith path "/auth" = true
  · have hnu : path ≠ "/users" := by
      intro he; subst he; exact absurd (by decide : pyStartswith "/users" "/users" = true) hpu
    have t1 : ¬(path = "/users" ∧ method = "GET") := fun hh => hnu hh.1
    have t2 : ¬(path = "/users" ∧ method = "POST" ∧ dictTruthy d = true) := fun hh => hnu hh.1
    have t3 : ¬(path = "/auth/login" ∧ method = "POST" ∧ dictTruthy d = true ∧
        dictGet (d.getD []) "username" = some "admin" ∧
        dictGet (d.getD []) "password" = some "secret") :=
      fun hh => h3 ⟨hh.1, hh.2.1, hh.2.2.1⟩
    simp [hpu, hpa, b3, t1, t2, t3, h3]
  · have hnu : path ≠ "/users" := by
      intro he; subst he; exact absurd (by decide : pyStartswith "/users" "/users" = true) hpu
    have hna : path ≠ "/auth/login" := by
      intro he; subst he
      exact absurd (by decide : pyStartswith "/auth/login" "/auth" = true) hpa
    have t1 : ¬(path = "/users" ∧ method = "GET") := fun hh => hnu hh.1
    have t2 : ¬(path = "/users" ∧ method = "POST" ∧ dictTruthy d = true) := fun hh => hnu hh.1
    have t3 : ¬(path = "/auth/login" ∧ method = "POST" ∧ dictTruthy d = true ∧
        dictGet (d.getD []) "username" = some "admin" ∧
        dictGet (d.getD []) "password" = some "secret") := fun hh => hna hh.1
    have t4 : ¬(path = "/auth/login" ∧ method = "POST" ∧ dictTruthy d = true) :=
      fun hh => hna hh.1
    simp [hpu, hpa, t1, t2, t3, t4]

/-- A member of `l.takeWhile q` is a member of `l`. -/
theorem mem_of_mem_takeWhile {x : Char} {q : Char → Bool} :
    ∀ l : List Char, x ∈ l.takeWhile q → x ∈ l := by
  intro l
  induction l with
  | nil => intro h; simp at h
  | cons a as ih =>
    intro h
    rw [List.takeWhile_cons] at h
    by_cases hq : q a = true
    · rw [if_pos hq] at h
      rcases List.mem_cons.mp h with h | h
      · exact List.mem_cons.mpr (Or.inl h)
      · exact List.mem_cons.mpr (Or.inr (ih h))
    · rw [if_neg hq] at h
      simp at h

/-- A character found in `l.takeWhile q` is found in `l`. -/
theorem hasChar_mono_takeWhile (l : List Char) (q : Char → Bool) (c : Char)
    (h : hasChar (l.takeWhile q) c = true) : hasChar l c = true := by
  simp only [hasChar, List.any_eq_true] at h ⊢
  obtain ⟨x, hx, hxc⟩ := h
  exact ⟨x, mem_of_mem_takeWhile l hx, hxc⟩

/-! ## Claim theorems -/

/-- C1 counterexample: at the concrete non-200 response with status 404, the
try-body of `get_users` does raise `APIError`, but the caller of `get_users`
receives a normal empty list: the function's own `except` clause swallows the
error instead of letting it propagate as the claim states. -/
theorem get_users_swallows_counterexample :
    get_users_try { status := 404, data := none, error := some "Endpoint not found" } =
      .error (.apiError "Failed to get users: Endpoint not found") ∧
    get_users_catch
      (get_users_try { status := 404, data := none, error := some "Endpoint not found" }) = [] :=
  ⟨rfl, rfl⟩

/-- C1 (amended): when the simulated status is not 200 the try-body of
`get_users` raises `APIError`, but the function catches every exception itself
and returns the empty list, so no error reaches the lazy-fill paths; moreover
the simulated backend answers the list request with status 200 in every state,
so `get_users` in fact always returns the fixed list. -/
theorem get_users_error_swallowed (r : Response) (h : r.status ≠ 200) (s : ClientState) :
    get_users_try r = .error (.apiError ("Failed to get users: " ++ pyStrOpt r.error)) ∧
    get_users_catch (get_users_try r) = [] ∧
    (make_request s "/users" "GET" none).2.status = 200 ∧
    (get_users s).2 = fixedUsers := by
  have hb : (r.status == 200) = false := by simp [h]
  refine ⟨?_, ?_, rfl, rfl⟩
  · simp [get_users_try, hb]
  · simp [get_users_try, get_users_catch, hb]

theorem get_users_error_swallowed_witness :
    ({ status := 404, data := none, error := some "Endpoint not found"} : Response).status ≠ 200 ∧
    (get_users_try { status := 404, data := none, error := some "Endpoint not found" } =
        .error (.apiError ("Failed to get users: " ++
          pyStrOpt (some "Endpoint not found"))) ∧
      get_users_catch
        (get_users_try { status := 404, data := none, error := some "Endpoint not found" }) = [] ∧
      (make_request (initClient "https://api.example.com" none) "/users" "GET" none).2.status = 200 ∧
      (get_users (initClient "https://api.example.com" none)).2 = fixedUsers) :=
  ⟨by decide, get_users_error_swallowed _ (by decide) _⟩

/-- C2 counterexample: "/users/1" is a path other than "/users" and
"/auth/login", yet the simulated backend answers 400 "Invalid users endpoint"
and not the 404 "Endpoint not found" the claim's table prescribes for it. -/
theorem make_request_404_counterexample :
    (make_request (initClient "https://api.example.com" none) "/users/1" "GET" none).2 =
      { status := 400, data := none, error := some "Invalid users endpoint" } ∧
    (make_request (initClient "https://api.example.com" none) "/users/1" "GET" none).2 ≠
      { status := 404, data := none, error := some "Endpoint not found" } :=
  ⟨rfl, by decide⟩

/-- C3: for every contact string that does not contain "@", or whose substring
after the first "@" does not contain ".", `create_user` raises `ValueError`
without dispatching any request: the state — in particular the request
counter — is unchanged. -/
theorem createResource_invalid_contact (s : ClientState) (name email : String)
    (h : hasChar email.data '@' = false ∨ hasChar (afterFirst '@' email.data) '.' = false) :
    create_user s name email =
      (s, .error (.valueError ("Invalid email format: " ++ email))) ∧
    (create_user s name email).1.request_count = s.request_count := by
  have hv : is_valid_email email = false := by
    rcases h with h | h
    · simp [is_valid_email, h]
    · have htw : hasChar (pySplitIdx1 '@' email.data) '.' = false := by
        cases hh : hasChar (pySplitIdx1 '@' email.data) '.'
        · rfl
        · exfalso
          have h1 : hasChar ((afterFirst '@' email.data).takeWhile (fun a => !(a == '@'))) '.'
              = true := by
            simpa [pySplitIdx1] using hh
          have h2 := hasChar_mono_takeWhile _ _ _ h1
          rw [h] at h2
          exact Bool.false_ne_true h2
      simp [is_valid_email, htw]
  rw [create_user_eq]
  simp [hv]

theorem createResource_invalid_contact_witness :
    (hasChar "bob.example.com".data '@' = false ∨
      hasChar (afterFirst '@' "bob.example.com".data) '.' = false) ∧
    (create_user (initClient "https://api.example.com" none) "Bob" "bob.example.com" =
        (initClient "https://api.example.com" none,
         .error (.valueError "Invalid email format: bob.example.com")) ∧
      (create_user (initClient "https://api.example.com" none) "Bob"
          "bob.example.com").1.request_count =
        (initClient "https://api.example.com" none).request_count) :=
  ⟨Or.inl (by decide), createResource_invalid_contact _ _ _ (Or.inl (by decide))⟩

/-- C4 counterexample: identifiers are not fresh — two consecutive creations
with valid contacts both receive id 999, so the second collides with the id of
the previously created resource; moreover "a@b@c.d" matches the claimed shape
`*@*.*` (an "@" with a later ".") yet `create_user` rejects it, because the
validator checks `split("@")[1]`, the segment before the second "@". -/
theorem createResource_freshness_counterexample :
    ((create_user (create_user (initClient "u" none) "D" "d@example.com").1
        "E" "e@example.com").2 =
      .ok (some { id := 999, name := some "E", email := some "e@example.com", active := true })) ∧
    ((create_user (initClient "u" none) "D" "d@example.com").2 =
      .ok (some { id := 999, name := some "D", email := some "d@example.com", active := true })) ∧
    (hasChar "a@b@c.d".data '@' = true ∧ hasChar (afterFirst '@' "a@b@c.d".data) '.' = true) ∧
    (create_user (initClient "u" none) "X" "a@b@c.d").2 =
      .error (.valueError "Invalid email format: a@b@c.d") :=
  ⟨rfl, rfl, by decide, rfl⟩

/-- C4 (amended): for every name and every contact the source's validator
accepts (it contains "@" and `split("@")[1]` contains "."), `create_user`
succeeds and returns a resource with `active = true` and the constant
identifier 999 — distinct from every id of the fixed backend list, but shared
by every created resource rather than fresh. -/
theorem createResource_valid_returns_999 (s : ClientState) (name email : String)
    (h : is_valid_email email = true) :
    (create_user s name email).2 =
      .ok (some { id := 999, name := some name, email := some email, active := true }) ∧
    (∀ u ∈ fixedUsers, u.id ≠ 999) := by
  refine ⟨?_, by decide⟩
  rw [create_user_eq]
  simp [h]

theorem createResource_valid_returns_999_witness :
    is_valid_email "d@example.com" = true ∧
    ((create_user (initClient "u" none) "D" "d@example.com").2 =
        .ok (some { id := 999, name := some "D", email := some "d@example.com", active := true }) ∧
      (∀ u ∈ fixedUsers, u.id ≠ 999)) :=
  ⟨by decide, createResource_valid_returns_999 _ _ _ (by decide)⟩

/-- C5: on a fresh client `login("admin","secret")` returns true and leaves
`get_stats().authenticated` true; any other credential pair returns false (a
normal result — `login` is a total function and never raises), stores no
session token, and leaves `authenticated` false. -/
theorem login_admin_secret_only (url : String) (key : Option String)
    (u p : String) (h : ¬(u = "admin" ∧ p = "secret")) :
    (login (initClient url key) "admin" "secret").2 = true ∧
    (get_stats (login (initClient url key) "admin" "secret").1).authenticated = true ∧
    (login (initClient url key) u p).2 = false ∧
    (login (initClient url key) u p).1.session_token = none ∧
    (get_stats (login (initClient url key) u p).1).authenticated = false := by
  have h1 := login_eq (initClient url key) "admin" "secret"
  rw [if_pos ⟨rfl, rfl⟩] at h1
  have h2 := login_eq (initClient url key) u p
  rw [if_neg h] at h2
  refine ⟨by rw [h1], by rw [h1]; rfl, by rw [h2], by rw [h2]; rfl, by rw [h2]; rfl⟩

theorem login_admin_secret_only_witness :
    ¬(("guest" : String) = "admin" ∧ ("guest" : String) = "secret") ∧
    ((login (initClient "https://api.example.com" (some "secret-api-key")) "admin" "secret").2
        = true ∧
      (get_stats (login (initClient "https://api.example.com" (some "secret-api-key"))
          "admin" "secret").1).authenticated = true ∧
      (login (initClient "https://api.example.com" (some "secret-api-key")) "guest" "guest").2
        = false ∧
      (login (initClient "https://api.example.com" (some "secret-api-key")) "guest"
          "guest").1.session_token = none ∧
      (get_stats (login (initClient "https://api.example.com" (some "secret-api-key"))
          "guest" "guest").1).authenticated = false) :=
  ⟨by decide, login_admin_secret_only _ _ _ _ (by decide)⟩

/-- C6: on a fresh manager, `refresh_users` followed by `get_active_users`
yields exactly the active records of the fixed table — ids 1 and 3 — in their
original order; and whenever the cache is non-empty, `get_active_users`
leaves the manager state (in particular the cache) untouched. -/
theorem refresh_then_getActive (url : String) (key : Option String)
    (m : ManagerState) (h : m.users_cache ≠ []) :
    (get_active_users (refresh_users (initManager (initClient url key)))).2 =
      [ { id := 1, name := some "Alice", email := some "alice@example.com", active := true }
      , { id := 3, name := some "Charlie", email := some "charlie@example.com", active := true } ] ∧
    (get_active_users m).1 = m := by
  constructor
  · rfl
  · have hc : m.users_cache.isEmpty = false := by
      cases hl : m.users_cache
      · exact absurd hl h
      · simp
    simp [get_active_users, hc]

theorem refresh_then_getActive_witness :
    (refresh_users (initManager (initClient "u" none))).users_cache ≠ [] ∧
    ((get_active_users (refresh_users (initManager (initClient "u" none)))).2 =
        [ { id := 1, name := some "Alice", email := some "alice@example.com", active := true }
        , { id := 3, name := some "Charlie", email := some "charlie@example.com", active := true } ] ∧
      (get_active_users (refresh_users (initManager (initClient "u" none)))).1 =
        refresh_users (initManager (initClient "u" none))) :=
  ⟨by decide, refresh_then_getActive "u" none _ (by decide)⟩

/-- C7: `get_user_summary` on a fresh manager (empty cache) performs exactly
one request — the single implicit refresh — and returns total 3, active 2,
inactive 1, with the domain histogram mapping "example.com" (the substring
after "@" of each contact) to 3. -/
theorem getSummary_fresh (url : String) (key : Option String) :
    (get_user_summary (initManager (initClient url key))).1.client.request_count =
      (initClient url key).request_count + 1 ∧
    (get_user_summary (initManager (initClient url key))).2 =
      { total_users := 3, active_users := 2, inactive_users := 1
        email_domains := [("example.com", 3)], last_refresh_set := true } :=
  ⟨rfl, rfl⟩

/-- C8: two consecutive refreshes with no intervening create leave the cache
contents identical — the same records, with the same ids, in the same
order. -/
theorem refresh_idempotent_cache (m : ManagerState) :
    (refresh_users (refresh_users m)).users_cache = (refresh_users m).users_cache := rfl

/-- C9: the request counter is bumped by exactly one per dispatched request —
by `get_users`, by a `create_user` call that passes validation, and by
`login` — hence it is monotonically increasing; `get_stats` is a pure
function of the state (it cannot change it) reporting the counter. -/
theorem request_counter_one_per_dispatch (s : ClientState) (name email u p : String)
    (h : is_valid_email email = true) :
    (get_users s).1.request_count = s.request_count + 1 ∧
    (create_user s name email).1.request_count = s.request_count + 1 ∧
    (login s u p).1.request_count = s.request_count + 1 ∧
    (get_stats s).requests_made = s.request_count := by
  refine ⟨rfl, ?_, ?_, rfl⟩
  · rw [create_user_eq]
    simp [h]
  · rw [login_eq]
    by_cases hc : u = "admin" ∧ p = "secret" <;> simp [hc]

theorem request_counter_one_per_dispatch_witness :
    is_valid_email "d@example.com" = true ∧
    ((get_users (initClient "u" none)).1.request_count =
        (initClient "u" none).request_count + 1 ∧
      (create_user (initClient "u" none) "D" "d@example.com").1.request_count =
        (initClient "u" none).request_count + 1 ∧
      (login (initClient "u" none) "admin" "secret").1.request_count =
        (initClient "u" none).request_count + 1 ∧
      (get_stats (initClient "u" none)).requests_made =
        (initClient "u" none).request_count) :=
  ⟨by decide, request_counter_one_per_dispatch _ "D" "d@example.com" "admin" "secret" (by decide)⟩

/-- C10: `create_and_add_user` is atomic with respect to the cache — whenever
the underlying `create_user` raises (`ValueError` or `APIError`), the
manager's cache after the failed call is exactly the cache before it. -/
theorem createAndCache_error_preserves_cache (m : ManagerState) (name email : String)
    (e : Err) (h : (create_and_add_user m name email).2 = .error e) :
    (create_and_add_user m name email).1.users_cache = m.users_cache := by
  unfold create_and_add_user at h ⊢
  rcases hcu : create_user m.client name email with ⟨c, r⟩
  rw [hcu] at h
  rcases r with r | r
  · rfl
  · rcases r with _ | u
    · rfl
    · exact Except.noConfusion h

theorem createAndCache_error_preserves_cache_witness :
    (create_and_add_user (initManager (initClient "u" none)) "Bob" "bob.example.com").2 =
      .error (.valueError "Invalid email format: bob.example.com") ∧
    (create_and_add_user (initManager (initClient "u" none)) "Bob"
        "bob.example.com").1.users_cache =
      (initManager (initClient "u" none)).users_cache :=
  ⟨rfl, createAndCache_error_preserves_cache _ _ _ _ rfl⟩
